import Mathlib

/-!
Shallow embedding of the rental-lifecycle core of the peer-to-peer rental
marketplace: the availability engine (`Rental.checkAvailability`,
`Rental.calculatePrice` in the rental model file), the rental state machine
(route handlers `POST /rentals`, `PATCH /rentals/:id/status`,
`PATCH /rentals/:id/cancel` in `src/server/src/routes/rentals.js`, and the two
vendor routers concatenated in `src/server/src/routes/notifications.js`:
the strict status handler with one-step approve promotion, the permissive
status handler with undo edges, `POST /rentals/:id/approve`, and the
`PATCH /rentals/:id` date-edit handler), plus the notification dispatcher
(`createNotification` / `createRentalNotification`).

Modelling conventions:
* Mongo object ids are `Nat`; the rental store and product store are lists
  inside an explicit state record `St`; `save` is replacement by id and
  creation is appending.
* JS `Date` values are their millisecond timestamps, modelled as `Int`.
* JS numbers that can become `NaN` are modelled as `Option Int` with `none`
  for `NaN`: the Product schema declares only `pricing.perDay`, so the
  accesses `product.pricing.perWeek` / `product.pricing.perMonth` performed
  by the create handler yield `undefined`, arithmetic on them yields `NaN`,
  and every comparison against `NaN` is `false`.
* Authentication resolves to an actor id plus a `Role`; the
  `authorize("vendor")` middleware of the vendor routers is the leading role
  check of the corresponding functions.
* Notification dispatch failure is a `Bool` parameter (`notifyOk`):
  `createNotification` catches its own errors and returns `null`, so failure
  only means the notification is not stored.
-/

/-- Rental status enum of the rental schema
(`enum: ['pending', 'approved', 'active', 'rejected', 'completed', 'cancelled']`). -/
inductive RStatus
  | pending
  | approved
  | active
  | rejected
  | completed
  | cancelled
  deriving DecidableEq

/-- User roles from the User model / `authorize` middleware. -/
inductive Role
  | customer
  | vendor
  | admin
  deriving DecidableEq

/-- Collaborator view of a product (Product model): owner, pricing and the
global availability flag.  The schema declares only `pricing.perDay`; the
`perWeek` / `perMonth` fields are kept as `Option Int` because the create
handler reads them — on every schema-conforming product they are `none`
(JS `undefined`). -/
structure Product where
  id : Nat
  owner : Nat
  perDay : Int
  perWeek : Option Int
  perMonth : Option Int
  isAvailable : Bool
  deriving DecidableEq

/-- A rental document (rental schema). -/
structure Rental where
  id : Nat
  product : Nat
  renter : Nat
  owner : Nat
  startDate : Int
  endDate : Int
  duration : String
  totalPrice : Int
  status : RStatus
  paymentStatus : String
  returnStatus : String
  deriving DecidableEq

/-- A stored notification document (Notification model; `title` and
`message` are required by the schema, hence kept as `Option` so that a
build with a missing title models a failed `Notification.create`). -/
structure Notif where
  recipient : Nat
  ntype : String
  title : Option String
  message : Option String
  deriving DecidableEq

/-- The stored state: product store, rental store, notification store and
the id counter used for newly created rentals. -/
structure St where
  products : List Product
  rentals : List Rental
  notifications : List Notif
  nextId : Nat
  deriving DecidableEq

/-- Error taxonomy surfaced by the handlers (each constructor corresponds to
one early-return response of the route code; payloads model the structured
details carried by the response body). -/
inductive RErr
  | invalidRange
  | dateInPast
  | notFound
  | selfRental
  | productUnavailable
  | dateConflict (hint : Option Int)
  | priceMismatch (expected : Option Int)
  | invalidTransition (cur target : RStatus)
  | forbidden
  | onlyPending
  | serverError
  deriving DecidableEq

/-- Milliseconds per day, the divisor `1000 * 60 * 60 * 24` of the source. -/
def msPerDay : Int := 86400000

/-- Exact integer ceiling of `a / b` for `b > 0`: the value of JS
`Math.ceil(a / b)` on exactly-represented integer inputs. -/
def ceilDivInt (a b : Int) : Int := -((-a) / b)

/-- A status that commits the booking: the `$in: ['approved', 'active']`
filter of `checkAvailability`. -/
def committedB (s : RStatus) : Bool := decide (s = .approved ∨ s = .active)

/-- The Mongo query filter of `rentalSchema.statics.checkAvailability`:
same product, committed status, and `startDate <= end AND endDate >= start`
(closed intervals). -/
def overlapsCommitted (pid : Nat) (startD endD : Int) (r : Rental) : Bool :=
  decide (r.product = pid) && committedB r.status &&
    decide (r.startDate ≤ endD) && decide (startD ≤ r.endDate)

/-- The documents returned by the overlap query. -/
def overlappingRentals (rentals : List Rental) (pid : Nat) (startD endD : Int) : List Rental :=
  rentals.filter (overlapsCommitted pid startD endD)

/-- `rentalSchema.statics.checkAvailability`: `true` iff the overlap query
returns no documents.  Pure read over the rental store. -/
def checkAvailability (rentals : List Rental) (pid : Nat) (startD endD : Int) : Bool :=
  (overlappingRentals rentals pid startD endD).isEmpty

/-- The "available after" hint of the create handler: the maximum `endDate`
among the overlapping rentals, `none` when there is no conflict. -/
def earliestAvailableAfter (rentals : List Rental) (pid : Nat) (startD endD : Int) : Option Int :=
  match overlappingRentals rentals pid startD endD with
  | [] => none
  | r :: rs => some (rs.foldl (fun acc x => max acc x.endDate) r.endDate)

/-- `rentalSchema.statics.calculatePrice`: day count
`Math.ceil((end - start) / msPerDay)`, duration `days.toString()` and total
price `days * product.pricing.perDay` (flat daily rate). -/
def calculatePrice (perDay startD endD : Int) : String × Int :=
  let days := ceilDivInt (endD - startD) msPerDay
  (toString days, days * perDay)

/-- The legal values of the rental schema's `duration` enum
(`enum: ['daily', 'weekly', 'monthly']`). -/
def durationEnum : List String := ["daily", "weekly", "monthly"]

/-- The tiered duration/expected-price computation of the create handler
(`routes/rentals.js` lines 88-105): up to 7 days the flat daily rate, up to
30 days `ceil(days / 7) * perWeek`, beyond `ceil(days / 30) * perMonth`.
The weekly/monthly branches read `Option Int` pricing fields (see
`Product`), so an absent field makes the expected price `none` (`NaN`). -/
def expectedTier (p : Product) (days : Int) : String × Option Int :=
  if days ≤ 7 then ("daily", some (days * p.perDay))
  else if days ≤ 30 then ("weekly", p.perWeek.map (fun w => ceilDivInt days 7 * w))
  else ("monthly", p.perMonth.map (fun m => ceilDivInt days 30 * m))

/-- The guard `Math.abs(expectedPrice - totalPrice) > 1` of the create
handler.  A `none` expected price is JS `NaN`: the comparison is `false`,
so the guard never fires. -/
def priceOutOfTolerance (expected : Option Int) (claimed : Int) : Bool :=
  match expected with
  | some e => decide (1 < (e - claimed).natAbs)
  | none => false

/-- The notifications built by `createRentalNotification` for a rental and a
type (product titles in the message texts are elided; a `rental_status`
notification for a status outside the four handled branches has `undefined`
title and message, modelled as `none`). -/
def buildRentalNotifs (r : Rental) (t : String) : List Notif :=
  if t = "rental_request" then
    [{ recipient := r.owner, ntype := t,
       title := some "New Rental Request",
       message := some "New rental request" }]
  else if t = "rental_status" then
    [{ recipient := r.renter, ntype := t,
       title :=
         match r.status with
         | .approved => some "Rental Request Approved"
         | .rejected => some "Rental Request Rejected"
         | .completed => some "Rental Completed"
         | .cancelled => some "Rental Cancelled"
         | _ => none,
       message :=
         match r.status with
         | .approved => some "Your rental request has been approved"
         | .rejected => some "Your rental request has been rejected"
         | .completed => some "Rental has been marked as completed"
         | .cancelled => some "Rental has been cancelled"
         | _ => none }]
  else []

/-- `createNotification` wrapped around `createRentalNotification`: each
document is stored only when `Notification.create` succeeds (`notifyOk` and
the schema-required `title` present); a failure is caught inside
`createNotification` and only results in the document not being stored —
never in an error for the caller. -/
def dispatchRentalNotifs (st : St) (r : Rental) (t : String) (notifyOk : Bool) : St :=
  { st with notifications :=
      st.notifications ++
        (if notifyOk then (buildRentalNotifs r t).filter (fun n => n.title.isSome) else []) }

/-- Mongoose `document.save()` for an already-stored rental: replacement by
id. -/
def saveRental (st : St) (r : Rental) : St :=
  { st with rentals := st.rentals.map (fun x => if x.id = r.id then r else x) }

/-- `Product.findByIdAndUpdate(pid, { "availability.isAvailable": b })`. -/
def setProductAvailable (st : St) (pid : Nat) (b : Bool) : St :=
  { st with products := st.products.map (fun p => if p.id = pid then { p with isAvailable := b } else p) }

/-- `Product.findById`. -/
def findProduct (st : St) (pid : Nat) : Option Product :=
  st.products.find? (fun p => decide (p.id = pid))

/-- `Rental.findOne({ _id: rid, owner: uid })`: the owner-scoped rental
lookup used by both status handlers and the date-edit handler. -/
def findRentalOwned (st : St) (rid uid : Nat) : Option Rental :=
  st.rentals.find? (fun r => decide (r.id = rid ∧ r.owner = uid))

/-- `POST /rentals` (`routes/rentals.js` lines 9-150): validation sequence
(date order, past start, product existence, self-rental, global flag,
availability, tiered price guard) and on success insertion of a `pending`
rental storing the claimed total price, followed by the fire-and-forget
`rental_request` notification. -/
def createRental (st : St) (uid pid : Nat) (startD endD claimed now : Int)
    (notifyOk : Bool) : Except RErr Rental × St :=
  if endD ≤ startD then (.error .invalidRange, st)
  else if startD < now then (.error .dateInPast, st)
  else
    match findProduct st pid with
    | none => (.error .notFound, st)
    | some product =>
      if product.owner = uid then (.error .selfRental, st)
      else if product.isAvailable = false then (.error .productUnavailable, st)
      else if checkAvailability st.rentals pid startD endD = false then
        (.error (.dateConflict (earliestAvailableAfter st.rentals pid startD endD)), st)
      else
        let days := ceilDivInt (endD - startD) msPerDay
        let tier := expectedTier product days
        if priceOutOfTolerance tier.2 claimed then (.error (.priceMismatch tier.2), st)
        else
          let rental : Rental :=
            { id := st.nextId, product := pid, renter := uid, owner := product.owner,
              startDate := startD, endDate := endD, duration := tier.1,
              totalPrice := claimed, status := .pending,
              paymentStatus := "pending", returnStatus := "pending" }
          let st1 := { st with rentals := st.rentals ++ [rental], nextId := st.nextId + 1 }
          (.ok rental, dispatchRentalNotifs st1 rental "rental_request" notifyOk)

/-- The strict transition table (`validTransitions` of
`routes/rentals.js` lines 237-244 and of the first vendor router):
terminal states have no outgoing edges. -/
def validTransitions : RStatus → List RStatus
  | .pending => [.approved, .rejected, .cancelled]
  | .approved => [.active, .cancelled]
  | .active => [.completed, .cancelled]
  | .completed => []
  | .rejected => []
  | .cancelled => []

/-- `PATCH /rentals/:id/status` of `routes/rentals.js` (lines 209-274):
owner-scoped lookup, strict table, completion flips the product flag back to
available, the requested status is stored as given, then the
`rental_status` notification is dispatched. -/
def transitionStatus (st : St) (uid rid : Nat) (target : RStatus)
    (notifyOk : Bool) : Except RErr Rental × St :=
  match findRentalOwned st rid uid with
  | none => (.error .notFound, st)
  | some rental =>
    if target ∉ validTransitions rental.status then
      (.error (.invalidTransition rental.status target), st)
    else
      let st1 := if target = .completed then setProductAvailable st rental.product true else st
      let updated := { rental with status := target }
      (.ok updated, dispatchRentalNotifs (saveRental st1 updated) updated "rental_status" notifyOk)

/-- `PATCH /rentals/:id/status` of the first vendor router
(`notifications.js` concatenation, lines 538-638): behind
`authorize("vendor")`, strict table, an `approved` target is automatically
promoted to `active` before saving, completion flips the product flag. -/
def vendorTransitionStatus (st : St) (role : Role) (uid rid : Nat) (target : RStatus)
    (notifyOk : Bool) : Except RErr Rental × St :=
  if role ≠ Role.vendor then (.error .forbidden, st)
  else
    match findRentalOwned st rid uid with
    | none => (.error .notFound, st)
    | some rental =>
      if target ∉ validTransitions rental.status then
        (.error (.invalidTransition rental.status target), st)
      else
        let newStatus := if target = .approved then RStatus.active else target
        let st1 := if target = .completed then setProductAvailable st rental.product true else st
        let updated := { rental with status := newStatus }
        (.ok updated, dispatchRentalNotifs (saveRental st1 updated) updated "rental_status" notifyOk)

/-- The permissive transition table of the second vendor router
(`notifications.js` concatenation, lines 1142-1149): undo/restore edges out
of the terminal states. -/
def permissiveTransitions : RStatus → List RStatus
  | .pending => [.approved, .rejected, .cancelled]
  | .approved => [.pending, .active, .cancelled]
  | .active => [.approved, .completed, .cancelled]
  | .completed => [.active]
  | .rejected => [.pending]
  | .cancelled => [.pending, .approved, .active]

/-- `PATCH /rentals/:id/status` of the second vendor router
(lines 1090-1192): behind `authorize("vendor")`, permissive table, no
approve promotion and no completion handling of the product flag. -/
def permissiveTransitionStatus (st : St) (role : Role) (uid rid : Nat) (target : RStatus)
    (notifyOk : Bool) : Except RErr Rental × St :=
  if role ≠ Role.vendor then (.error .forbidden, st)
  else
    match findRentalOwned st rid uid with
    | none => (.error .notFound, st)
    | some rental =>
      if target ∉ permissiveTransitions rental.status then
        (.error (.invalidTransition rental.status target), st)
      else
        let updated := { rental with status := target }
        (.ok updated, dispatchRentalNotifs (saveRental st updated) updated "rental_status" notifyOk)

/-- `PATCH /rentals/:id/cancel` of `routes/rentals.js` (lines 277-312):
lookup by id only, then a renter check (403), then a pending-only check,
then the cancellation is stored and notified. -/
def cancelRental (st : St) (uid rid : Nat) (notifyOk : Bool) : Except RErr Rental × St :=
  match st.rentals.find? (fun r => decide (r.id = rid)) with
  | none => (.error .notFound, st)
  | some rental =>
    if rental.renter ≠ uid then (.error .forbidden, st)
    else if rental.status ≠ RStatus.pending then (.error .onlyPending, st)
    else
      let updated := { rental with status := RStatus.cancelled }
      (.ok updated, dispatchRentalNotifs (saveRental st updated) updated "rental_status" notifyOk)

/-- `POST /rentals/:id/approve` (present identically in both vendor
routers): behind `authorize("vendor")`, finds a pending rental scoped to the
owner and stores status `approved`; no promotion to `active`, no
notification. -/
def approveRental (st : St) (role : Role) (uid rid : Nat) : Except RErr Rental × St :=
  if role ≠ Role.vendor then (.error .forbidden, st)
  else
    match st.rentals.find? (fun r => decide (r.id = rid ∧ r.owner = uid ∧ r.status = RStatus.pending)) with
    | none => (.error .notFound, st)
    | some rental =>
      let updated := { rental with status := RStatus.approved }
      (.ok updated, saveRental st updated)

/-- The update payload of `PATCH /rentals/:id`: fields present in the
request body. -/
structure RentalUpdates where
  startDate : Option Int
  endDate : Option Int
  totalPrice : Option Int
  status : Option RStatus
  paymentStatus : Option String
  returnStatus : Option String
  deriving DecidableEq

/-- The `allowedUpdates` table of `PATCH /rentals/:id` (both vendor
routers, lines 701-714 and 1255-1268). -/
def allowedUpdates : RStatus → List String
  | .pending => ["startDate", "endDate", "totalPrice", "status"]
  | .approved => ["startDate", "endDate", "totalPrice", "status", "paymentStatus"]
  | .active => ["returnStatus", "status", "paymentStatus"]
  | .completed => ["paymentStatus"]
  | .cancelled => []
  | .rejected => []

/-- The field-filtering loop of `PATCH /rentals/:id`: each provided field is
applied to the document iff its name is in the allowed list. -/
def applyAllowed (r : Rental) (u : RentalUpdates) (allowed : List String) : Rental :=
  let r1 := if "startDate" ∈ allowed then { r with startDate := u.startDate.getD r.startDate } else r
  let r2 := if "endDate" ∈ allowed then { r1 with endDate := u.endDate.getD r1.endDate } else r1
  let r3 := if "totalPrice" ∈ allowed then { r2 with totalPrice := u.totalPrice.getD r2.totalPrice } else r2
  let r4 := if "status" ∈ allowed then { r3 with status := u.status.getD r3.status } else r3
  let r5 := if "paymentStatus" ∈ allowed then { r4 with paymentStatus := u.paymentStatus.getD r4.paymentStatus } else r4
  if "returnStatus" ∈ allowed then { r5 with returnStatus := u.returnStatus.getD r5.returnStatus } else r5

/-- The legal values of the rental schema's `paymentStatus` enum
(`enum: ['pending', 'paid', 'refunded']`). -/
def paymentStatusEnum : List String := ["pending", "paid", "refunded"]

/-- The legal values of the rental schema's `returnStatus` enum
(`enum: ['pending', 'returned', 'damaged']`). -/
def returnStatusEnum : List String := ["pending", "returned", "damaged"]

/-- The `enum` validators of the rental schema (part_014:27-50) on the
string fields (`status` is exact by the `RStatus` type): Mongoose runs
them on `document.save()` and rejects the save with a `ValidationError`
when one fails. -/
def rentalSchemaValid (r : Rental) : Bool :=
  durationEnum.contains r.duration && paymentStatusEnum.contains r.paymentStatus &&
    returnStatusEnum.contains r.returnStatus

/-- `PATCH /rentals/:id` (both vendor routers, lines 689-766 and
1243-1320): behind `authorize("vendor")`, owner-scoped lookup, field filter
by current status, and — only when a date field was provided and the
(already mutated) document is still `pending` — the availability re-check on
`updates.startDate || rental.startDate` / `updates.endDate ||
rental.endDate` followed by the `calculatePrice` recomputation of duration
and total price; everything else is saved as filtered.  The final
`rental.save()` runs the schema's enum validators (`rentalSchemaValid`):
a failing validation throws, is caught by the handler's `catch`, and
surfaces as a 500 response with nothing persisted.  This is the one save
in the embedding that models validation, because it is the one save that
can write to the enum-constrained string fields (`duration` via
`calculatePrice`, `paymentStatus`/`returnStatus` via the payload); the
status handlers only change `status`, which is exact by type, so on
schema-valid stored documents their saves always validate. -/
def updateRentalDates (st : St) (role : Role) (uid rid : Nat) (u : RentalUpdates) :
    Except RErr Rental × St :=
  if role ≠ Role.vendor then (.error .forbidden, st)
  else
    match findRentalOwned st rid uid with
    | none => (.error .notFound, st)
    | some rental =>
      let r1 := applyAllowed rental u (allowedUpdates rental.status)
      if (u.startDate.isSome || u.endDate.isSome) && decide (r1.status = RStatus.pending) then
        let sd := u.startDate.getD r1.startDate
        let ed := u.endDate.getD r1.endDate
        if checkAvailability st.rentals rental.product sd ed = false then
          (.error (.dateConflict none), st)
        else
          match findProduct st rental.product with
          | none => (.error .serverError, st)
          | some product =>
            let pr := calculatePrice product.perDay sd ed
            let r2 := { r1 with duration := pr.1, totalPrice := pr.2 }
            if rentalSchemaValid r2 = false then (.error .serverError, st)
            else (.ok r2, saveRental st r2)
      else
        if rentalSchemaValid r1 = false then (.error .serverError, st)
        else (.ok r1, saveRental st r1)

/-- `true` iff the handler responded with a success status. -/
def exceptOk (x : Except RErr Rental) : Bool :=
  match x with
  | .ok _ => true
  | .error _ => false

/-- Closed-interval overlap of two rentals' date ranges. -/
def rangesOverlap (r1 r2 : Rental) : Prop :=
  r1.startDate ≤ r2.endDate ∧ r2.startDate ≤ r1.endDate

instance (r1 r2 : Rental) : Decidable (rangesOverlap r1 r2) := by
  unfold rangesOverlap
  exact inferInstance

/-- The committed-booking invariant: no two distinct rentals of the same
product that are both in a committed status (`approved` or `active`) have
overlapping closed date intervals. -/
def nonOverlap (l : List Rental) : Prop :=
  ∀ r1 ∈ l, ∀ r2 ∈ l, r1.id ≠ r2.id → r1.product = r2.product →
    committedB r1.status = true → committedB r2.status = true → ¬ rangesOverlap r1 r2

instance (l : List Rental) : Decidable (nonOverlap l) := by
  unfold nonOverlap
  exact inferInstance

/-- Decidable equality of handler results, for evaluating concrete
scenarios. -/
instance : DecidableEq (Except RErr Rental) := fun x y =>
  match x, y with
  | .ok a, .ok b =>
    if h : a = b then .isTrue (by rw [h]) else .isFalse (fun hh => h (Except.ok.inj hh))
  | .error a, .error b =>
    if h : a = b then .isTrue (by rw [h]) else .isFalse (fun hh => h (Except.error.inj hh))
  | .ok a, .error b => .isFalse (fun hh => Except.noConfusion hh)
  | .error a, .ok b => .isFalse (fun hh => Except.noConfusion hh)

/-! ### Concrete fixture states -/

/-- Fixture for C1: one product (id 1, owner 10, 100 per day, available),
empty rental store. -/
def stC1 : St := ⟨[⟨1, 10, 100, none, none, true⟩], [], [], 1⟩

/-- After renter 20 books day 1 to day 5 (4 days, 400). -/
def stC1b : St := (createRental stC1 20 1 86400000 432000000 400 0 true).2

/-- After renter 30 additionally books day 3 to day 8 (5 days, 500), which
overlaps the first, still-pending request. -/
def stC1c : St := (createRental stC1b 30 1 259200000 691200000 500 0 true).2

/-- After the owner approves the first request. -/
def stC1d : St := (transitionStatus stC1c 10 1 RStatus.approved true).2

/-- After the owner approves the second request. -/
def stC1e : St := (transitionStatus stC1d 10 2 RStatus.approved true).2

/-- Fixture for C3: one schema-conforming product (id 1, owner 10,
`pricing.perDay = 100`, no `perWeek`/`perMonth` fields, available), empty
rental store. -/
def stC3 : St := ⟨[⟨1, 10, 100, none, none, true⟩], [], [], 1⟩

/-- Fixture rental for C4: a completed rental on product 1 (owner 10,
renter 20). -/
def rC4 : Rental := ⟨1, 1, 20, 10, 0, 5, "daily", 200, RStatus.completed, "pending", "pending"⟩

/-- Fixture for C4: store holding only the completed rental. -/
def stC4 : St := ⟨[], [rC4], [], 2⟩

/-- Fixture rental for C5: a pending rental on product 1 (owner 10,
renter 20). -/
def rC5 : Rental := ⟨1, 1, 20, 10, 0, 5, "daily", 200, RStatus.pending, "pending", "pending"⟩

/-- Fixture for C5: store holding only the pending rental. -/
def stC5 : St := ⟨[], [rC5], [], 2⟩

/-- Fixture rental for C6: a pending rental on product 1 (owner 10,
renter 20). -/
def rC6 : Rental := ⟨1, 1, 20, 10, 0, 5, "daily", 200, RStatus.pending, "pending", "pending"⟩

/-- Fixture for C6: store holding only the pending rental. -/
def stC6 : St := ⟨[], [rC6], [], 2⟩

/-- Fixture rental for C7: an active rental on product 1 (owner 10,
renter 20). -/
def rC7 : Rental := ⟨1, 1, 20, 10, 0, 5, "daily", 200, RStatus.active, "pending", "pending"⟩

/-- Fixture for C7: product 1 is flagged unavailable and has the active
rental. -/
def stC7 : St := ⟨[⟨1, 10, 100, none, none, false⟩], [rC7], [], 2⟩

/-- Fixture product for C9: id 1, owner 10, 100 per day, available. -/
def pC9 : Product := ⟨1, 10, 100, none, none, true⟩

/-- Fixture rental for C9: an approved rental on product 1 for day 10 to
day 12. -/
def rC9 : Rental := ⟨1, 1, 20, 10, 864000000, 1036800000, "daily", 200, RStatus.approved, "pending", "pending"⟩

/-- Fixture for C9: the product and the approved rental. -/
def stC9 : St := ⟨[pC9], [rC9], [], 2⟩

/-- Fixture update payload for C9: only a new start date (day 1). -/
def uC9 : RentalUpdates := ⟨some 86400000, none, none, none, none, none⟩

/-- Fixture update payload for C9: only a new start date (day 2). -/
def uC9b : RentalUpdates := ⟨some 172800000, none, none, none, none, none⟩

/-- Fixture rental for C9: a pending rental on product 1 for day 1 to
day 3. -/
def rC9p : Rental := ⟨1, 1, 20, 10, 86400000, 259200000, "daily", 200, RStatus.pending, "pending", "pending"⟩

/-- Fixture rental for C9: an active rental on product 1 for day 1 to
day 5, committed and conflicting with any range inside it. -/
def rC9a : Rental := ⟨2, 1, 30, 10, 86400000, 432000000, "daily", 400, RStatus.active, "pending", "pending"⟩

/-- Fixture for C9: pending rental plus a conflicting committed rental. -/
def stC9b : St := ⟨[pC9], [rC9p, rC9a], [], 3⟩

/-- Fixture for C9: the pending rental alone (no conflict). -/
def stC9c : St := ⟨[pC9], [rC9p], [], 2⟩

/-- Fixture rental for C9: an active rental on product 1. -/
def rC9act : Rental := ⟨1, 1, 20, 10, 86400000, 432000000, "daily", 400, RStatus.active, "pending", "pending"⟩

/-- Fixture for C9: the active rental alone. -/
def stC9d : St := ⟨[pC9], [rC9act], [], 2⟩

/-! ### Helper lemmas -/

theorem dispatchRentalNotifs_rentals (st : St) (r : Rental) (t : String) (ok : Bool) :
    (dispatchRentalNotifs st r t ok).rentals = st.rentals := rfl

theorem dispatchRentalNotifs_products (st : St) (r : Rental) (t : String) (ok : Bool) :
    (dispatchRentalNotifs st r t ok).products = st.products := rfl

theorem saveRental_rentals (st : St) (r : Rental) :
    (saveRental st r).rentals = st.rentals.map (fun x => if x.id = r.id then r else x) := rfl

theorem saveRental_products (st : St) (r : Rental) :
    (saveRental st r).products = st.products := rfl

theorem setProductAvailable_rentals (st : St) (pid : Nat) (b : Bool) :
    (setProductAvailable st pid b).rentals = st.rentals := rfl

/-- Preservation principle for the committed-booking invariant: if every
committed rental of the new store is witnessed by a committed rental of the
old store with the same id, product and dates, the invariant carries over. -/
theorem nonOverlap_of_committed_sub {l l2 : List Rental}
    (h : ∀ a ∈ l2, committedB a.status = true →
      ∃ r ∈ l, r.id = a.id ∧ r.product = a.product ∧
        r.startDate = a.startDate ∧ r.endDate = a.endDate ∧ committedB r.status = true)
    (hinv : nonOverlap l) : nonOverlap l2 := by
  intro a ha b hb hid hprod hca hcb hov
  obtain ⟨x, hx, hxid, hxp, hxs, hxe, hxc⟩ := h a ha hca
  obtain ⟨y, hy, hyid, hyp, hys, hye, hyc⟩ := h b hb hcb
  unfold rangesOverlap at hov
  refine hinv x hx y hy ?_ ?_ hxc hyc ?_
  · rw [hxid, hyid]; exact hid
  · rw [hxp, hyp]; exact hprod
  · exact ⟨by rw [hxs, hye]; exact hov.1, by rw [hys, hxe]; exact hov.2⟩

/-- Appending an uncommitted rental preserves the invariant. -/
theorem nonOverlap_append_uncommitted {l : List Rental} {r : Rental}
    (hr : committedB r.status = false) (hinv : nonOverlap l) : nonOverlap (l ++ [r]) := by
  refine nonOverlap_of_committed_sub ?_ hinv
  intro x hx hc
  rcases List.mem_append.mp hx with hx2 | hx2
  · exact ⟨x, hx2, rfl, rfl, rfl, rfl, hc⟩
  · simp only [List.mem_singleton] at hx2
    subst hx2
    rw [hr] at hc
    cases hc

/-- Replacing by id with a rental witnessed (same id, product, dates, and
committed only if the witness is) preserves the invariant. -/
theorem nonOverlap_save_list {l : List Rental} {old new : Rental} {i : Nat}
    (hold : old ∈ l) (hid : old.id = new.id) (hprod : old.product = new.product)
    (hs : old.startDate = new.startDate) (he : old.endDate = new.endDate)
    (hc : committedB new.status = true → committedB old.status = true)
    (hinv : nonOverlap l) :
    nonOverlap (l.map (fun x => if x.id = i then new else x)) := by
  refine nonOverlap_of_committed_sub ?_ hinv
  intro a ha hca
  simp only [List.mem_map] at ha
  obtain ⟨y, hy, hya⟩ := ha
  by_cases hcase : y.id = i
  · rw [if_pos hcase] at hya
    subst hya
    exact ⟨old, hold, hid, hprod, hs, he, hc hca⟩
  · rw [if_neg hcase] at hya
    subst hya
    exact ⟨y, hy, rfl, rfl, rfl, rfl, hca⟩

/-- Replacing by id with an uncommitted rental preserves the invariant. -/
theorem nonOverlap_save_uncommitted {l : List Rental} {new : Rental} {i : Nat}
    (hnew : committedB new.status = false) (hinv : nonOverlap l) :
    nonOverlap (l.map (fun x => if x.id = i then new else x)) := by
  refine nonOverlap_of_committed_sub ?_ hinv
  intro a ha hca
  simp only [List.mem_map] at ha
  obtain ⟨y, hy, hya⟩ := ha
  by_cases hcase : y.id = i
  · rw [if_pos hcase] at hya
    subst hya
    rw [hnew] at hca
    cases hca
  · rw [if_neg hcase] at hya
    subst hya
    exact ⟨y, hy, rfl, rfl, rfl, rfl, hca⟩

theorem createRental_preserves (st : St) (uid pid : Nat) (sD eD claimed now : Int) (ok : Bool)
    (hinv : nonOverlap st.rentals) :
    nonOverlap (createRental st uid pid sD eD claimed now ok).2.rentals := by
  unfold createRental
  split
  · exact hinv
  split
  · exact hinv
  split
  · exact hinv
  split
  · exact hinv
  split
  · exact hinv
  split
  · exact hinv
  next =>
    dsimp only
    split
    · exact hinv
    simp only [dispatchRentalNotifs_rentals]
    exact nonOverlap_append_uncommitted rfl hinv

theorem cancelRental_preserves (st : St) (uid rid : Nat) (ok : Bool)
    (hinv : nonOverlap st.rentals) :
    nonOverlap (cancelRental st uid rid ok).2.rentals := by
  unfold cancelRental
  split
  · exact hinv
  split
  · exact hinv
  split
  · exact hinv
  simp only [dispatchRentalNotifs_rentals, saveRental_rentals]
  refine nonOverlap_save_uncommitted ?_ hinv
  rfl

theorem transitionStatus_preserves (st : St) (uid rid : Nat) (target : RStatus) (ok : Bool)
    (ht : target ≠ RStatus.approved) (hinv : nonOverlap st.rentals) :
    nonOverlap (transitionStatus st uid rid target ok).2.rentals := by
  unfold transitionStatus
  split
  · exact hinv
  next rental heq =>
    split
    · exact hinv
    next hmem =>
      have hmem2 : target ∈ validTransitions rental.status := not_not.mp hmem
      have hold : rental ∈ st.rentals := List.mem_of_find?_eq_some heq
      have hrent : (if target = RStatus.completed then setProductAvailable st rental.product true else st).rentals = st.rentals := by
        split <;> rfl
      simp only [dispatchRentalNotifs_rentals, saveRental_rentals, hrent]
      refine nonOverlap_save_list hold ?_ ?_ ?_ ?_ ?_ hinv
      · rfl
      · rfl
      · rfl
      · rfl
      intro hct
      simp only [committedB, decide_eq_true_eq] at hct
      rcases hct with h | h
      · exact absurd h ht
      · subst h
        have hs2 : rental.status = RStatus.approved := by
          cases hs : rental.status <;> rw [hs] at hmem2 <;>
            first | rfl | exact absurd hmem2 (by decide)
        rw [hs2]
        decide

theorem updateRentalDates_preserves (st : St) (role : Role) (uid rid : Nat) (u : RentalUpdates)
    (hu : u.status = none)
    (hp : Option.all (fun x => decide (x.status = RStatus.pending)) (findRentalOwned st rid uid) = true)
    (hinv : nonOverlap st.rentals) :
    nonOverlap (updateRentalDates st role uid rid u).2.rentals := by
  unfold updateRentalDates
  split
  · exact hinv
  split
  · exact hinv
  next rental heq =>
    rw [heq] at hp
    simp only [Option.all_some, decide_eq_true_eq] at hp
    have hr1 : applyAllowed rental u (allowedUpdates rental.status) =
        { rental with startDate := u.startDate.getD rental.startDate,
                      endDate := u.endDate.getD rental.endDate,
                      totalPrice := u.totalPrice.getD rental.totalPrice } := by
      simp [applyAllowed, allowedUpdates, hu, hp]
    rw [hr1, hp]
    dsimp only
    split
    · split
      · exact hinv
      split
      · exact hinv
      split
      · exact hinv
      simp only [saveRental_rentals]
      refine nonOverlap_save_uncommitted ?_ hinv
      rfl
    · split
      · exact hinv
      simp only [saveRental_rentals]
      refine nonOverlap_save_uncommitted ?_ hinv
      rfl

/-! ### Claim C1 -/

/-- Claim C1 counterexample: starting from a state satisfying the
committed-booking invariant, two overlapping rental requests are created
(both succeed, both pending) and then both are approved through
`transitionStatus` — every step succeeds, yet the final state violates the
invariant: `transitionStatus` re-runs no availability check on the
`pending -> approved` edge, so the operations do not preserve the
invariant. -/
theorem C1_counterexample :
    nonOverlap stC1.rentals ∧
    exceptOk (createRental stC1 20 1 86400000 432000000 400 0 true).1 = true ∧
    exceptOk (createRental stC1b 30 1 259200000 691200000 500 0 true).1 = true ∧
    exceptOk (transitionStatus stC1c 10 1 RStatus.approved true).1 = true ∧
    exceptOk (transitionStatus stC1d 10 2 RStatus.approved true).1 = true ∧
    ¬ nonOverlap stC1e.rentals := by
  decide

/-- Claim C1 (amended): `createRental` and `cancelRental` always preserve
the committed-booking invariant, `transitionStatus` preserves it for every
target other than `approved` (the one edge that commits a booking, applied
without re-running the availability check), and the date-edit operation
preserves it when the rental is still pending and the payload does not
smuggle a status change — but not in general, as the counterexample shows. -/
theorem C1_invariant_preservation :
    (∀ (st : St) (uid pid : Nat) (sD eD claimed now : Int) (ok : Bool),
       nonOverlap st.rentals → nonOverlap (createRental st uid pid sD eD claimed now ok).2.rentals) ∧
    (∀ (st : St) (uid rid : Nat) (ok : Bool),
       nonOverlap st.rentals → nonOverlap (cancelRental st uid rid ok).2.rentals) ∧
    (∀ (st : St) (uid rid : Nat) (target : RStatus) (ok : Bool), target ≠ RStatus.approved →
       nonOverlap st.rentals → nonOverlap (transitionStatus st uid rid target ok).2.rentals) ∧
    (∀ (st : St) (role : Role) (uid rid : Nat) (u : RentalUpdates), u.status = none →
       Option.all (fun x => decide (x.status = RStatus.pending)) (findRentalOwned st rid uid) = true →
       nonOverlap st.rentals → nonOverlap (updateRentalDates st role uid rid u).2.rentals) := by
  refine ⟨?_, ?_, ?_, ?_⟩
  · intro st uid pid sD eD claimed now ok hinv
    exact createRental_preserves st uid pid sD eD claimed now ok hinv
  · intro st uid rid ok hinv
    exact cancelRental_preserves st uid rid ok hinv
  · intro st uid rid target ok ht hinv
    exact transitionStatus_preserves st uid rid target ok ht hinv
  · intro st role uid rid u hu hp hinv
    exact updateRentalDates_preserves st role uid rid u hu hp hinv

/-- Witness for C1_invariant_preservation: all four preservation statements
applied at concrete states with their hypotheses discharged. -/
theorem C1_invariant_preservation_witness :
    nonOverlap (createRental stC1 20 1 86400000 432000000 400 0 true).2.rentals ∧
    nonOverlap (cancelRental stC1b 20 1 true).2.rentals ∧
    nonOverlap (transitionStatus stC1b 10 1 RStatus.rejected true).2.rentals ∧
    nonOverlap (updateRentalDates stC1b Role.vendor 10 1 ⟨some 172800000, none, none, none, none, none⟩).2.rentals :=
  ⟨C1_invariant_preservation.1 stC1 20 1 86400000 432000000 400 0 true (by decide),
   C1_invariant_preservation.2.1 stC1b 20 1 true (by decide),
   C1_invariant_preservation.2.2.1 stC1b 10 1 RStatus.rejected true (by decide) (by decide),
   C1_invariant_preservation.2.2.2 stC1b Role.vendor 10 1 ⟨some 172800000, none, none, none, none, none⟩ rfl (by decide) (by decide)⟩

/-! ### Claim C2 -/

/-- Claim C2: for every store and every range with `start <= end`,
`checkAvailability` returns `true` iff no rental on the product in a
committed status (`approved` or `active`) satisfies
`startDate <= end AND endDate >= start` (closed intervals), and a rental in
any other status (`pending` or a terminal status) never affects the result.
The operation is a pure function of the rental store by construction
(it returns a `Bool` and takes the store by value), modelling the
side-effect-free Mongo `find`. -/
theorem C2_checkAvailability_correct (rentals : List Rental) (pid : Nat) (startD endD : Int)
    (h : startD ≤ endD) :
    (checkAvailability rentals pid startD endD = true ↔
      ∀ r ∈ rentals, r.product = pid →
        (r.status = RStatus.approved ∨ r.status = RStatus.active) →
        ¬ (r.startDate ≤ endD ∧ startD ≤ r.endDate)) ∧
    (∀ x : Rental, x.status ≠ RStatus.approved → x.status ≠ RStatus.active →
      checkAvailability (x :: rentals) pid startD endD =
        checkAvailability rentals pid startD endD) := by
  constructor
  · simp only [checkAvailability, overlappingRentals, List.isEmpty_iff, List.filter_eq_nil_iff,
      overlapsCommitted, committedB, Bool.and_eq_true, decide_eq_true_eq]
    apply forall_congr'
    intro r
    apply imp_congr_right
    intro _
    tauto
  · intro x hx1 hx2
    have hfalse : overlapsCommitted pid startD endD x = false := by
      simp [overlapsCommitted, committedB, hx1, hx2]
    simp only [checkAvailability, overlappingRentals, List.filter_cons, hfalse]
    simp

/-- Witness for C2_checkAvailability_correct at the empty store and the
range from 0 to 5. -/
theorem C2_witness :
    (checkAvailability [] 1 0 5 = true ↔
      ∀ r ∈ ([] : List Rental), r.product = 1 →
        (r.status = RStatus.approved ∨ r.status = RStatus.active) →
        ¬ (r.startDate ≤ 5 ∧ 0 ≤ r.endDate)) ∧
    (∀ x : Rental, x.status ≠ RStatus.approved → x.status ≠ RStatus.active →
      checkAvailability (x :: []) 1 0 5 = checkAvailability [] 1 0 5) :=
  C2_checkAvailability_correct [] 1 0 5 (by decide)

/-! ### Claim C3 -/

/-- Claim C3 is wrong about the code and the code is wrong about its own
documented pricing model: for an 8-day request (day count above 7) the
create handler takes the weekly tier and computes
`Math.ceil(days / 7) * product.pricing.perWeek`, but the Product schema
declares only `pricing.perDay`, so the expected price is `NaN` and the
mismatch guard `Math.abs(NaN - claimed) > 1` is `false` for every claimed
price: a rental for 8 days at 100 per day with a claimed total price of 1
is accepted and stored (with duration `"weekly"`), although the flat-rate
expected price is 800 and 1 is far outside the one-unit tolerance, so the
claim demands a `PriceMismatch` failure. -/
theorem C3_price_guard_bypassed :
    (createRental stC3 20 1 0 691200000 1 0 true).1 =
      .ok ⟨1, 1, 20, 10, 0, 691200000, "weekly", 1, RStatus.pending, "pending", "pending"⟩ ∧
    ceilDivInt (691200000 - 0) msPerDay = 8 ∧
    ¬ (8 : Int) ≤ 7 ∧
    (expectedTier ⟨1, 10, 100, none, none, true⟩ 8).2 = none ∧
    ceilDivInt (691200000 - 0) msPerDay * 100 = 800 ∧
    priceOutOfTolerance (some 800) 1 = true := by
  decide

/-! ### Claim C10 -/

theorem digitChar_isDigit (k : Nat) (h : k < 10) : (Nat.digitChar k).isDigit = true := by
  interval_cases k <;> decide

theorem toDigitsCore_digits : ∀ (fuel n : Nat) (ds : List Char),
    (∀ c ∈ ds, c.isDigit = true) → ∀ c ∈ Nat.toDigitsCore 10 fuel n ds, c.isDigit = true := by
  intro fuel
  induction fuel with
  | zero =>
    intro n ds h c hc
    unfold Nat.toDigitsCore at hc
    exact h c hc
  | succ fuel ih =>
    intro n ds h c hc
    unfold Nat.toDigitsCore at hc
    have hd : (Nat.digitChar (n % 10)).isDigit = true :=
      digitChar_isDigit (n % 10) (Nat.mod_lt _ (by decide))
    dsimp only at hc
    split at hc
    · rcases List.mem_cons.mp hc with rfl | hmem
      · exact hd
      · exact h c hmem
    · refine ih (n / 10) (Nat.digitChar (n % 10) :: ds) ?_ c hc
      intro c2 hc2
      rcases List.mem_cons.mp hc2 with rfl | hmem
      · exact hd
      · exact h c2 hmem

/-- Every character of the decimal representation of a natural number is a
digit. -/
theorem natRepr_digits (n : Nat) : ∀ c ∈ Nat.toDigits 10 n, c.isDigit = true := by
  intro c hc
  unfold Nat.toDigits at hc
  refine toDigitsCore_digits (n + 1) n [] ?_ c hc
  intro c2 hc2
  exact absurd hc2 (List.not_mem_nil c2)

/-- The decimal representation of a natural number is never one of the
schema's duration bucket names. -/
theorem natRepr_ne_buckets (n : Nat) :
    Nat.repr n ≠ "daily" ∧ Nat.repr n ≠ "weekly" ∧ Nat.repr n ≠ "monthly" := by
  refine ⟨?_, ?_, ?_⟩ <;> intro hEq
  · have hlist : Nat.toDigits 10 n = ("daily" : String).data := congrArg String.data hEq
    have hmem : ('d' : Char) ∈ Nat.toDigits 10 n := by rw [hlist]; decide
    exact absurd (natRepr_digits n 'd' hmem) (by decide)
  · have hlist : Nat.toDigits 10 n = ("weekly" : String).data := congrArg String.data hEq
    have hmem : ('w' : Char) ∈ Nat.toDigits 10 n := by rw [hlist]; decide
    exact absurd (natRepr_digits n 'w' hmem) (by decide)
  · have hlist : Nat.toDigits 10 n = ("monthly" : String).data := congrArg String.data hEq
    have hmem : ('m' : Char) ∈ Nat.toDigits 10 n := by rw [hlist]; decide
    exact absurd (natRepr_digits n 'm' hmem) (by decide)

/-- The decimal representation of any integer (a digit string, possibly
with a leading minus sign) is never one of the schema's duration bucket
names. -/
theorem intRepr_ne_buckets (i : Int) :
    toString i ≠ "daily" ∧ toString i ≠ "weekly" ∧ toString i ≠ "monthly" := by
  cases i with
  | ofNat n => exact natRepr_ne_buckets n
  | negSucc m =>
    refine ⟨?_, ?_, ?_⟩ <;> intro hEq
    · have hd : ("-" ++ Nat.repr (m + 1)).data = ("daily" : String).data :=
        congrArg String.data hEq
      rw [String.data_append, show ("-" : String).data = ['-'] from by decide,
        show ("daily" : String).data = ['d', 'a', 'i', 'l', 'y'] from by decide,
        List.singleton_append] at hd
      injection hd with h1 h2
      exact absurd h1 (by decide)
    · have hd : ("-" ++ Nat.repr (m + 1)).data = ("weekly" : String).data :=
        congrArg String.data hEq
      rw [String.data_append, show ("-" : String).data = ['-'] from by decide,
        show ("weekly" : String).data = ['w', 'e', 'e', 'k', 'l', 'y'] from by decide,
        List.singleton_append] at hd
      injection hd with h1 h2
      exact absurd h1 (by decide)
    · have hd : ("-" ++ Nat.repr (m + 1)).data = ("monthly" : String).data :=
        congrArg String.data hEq
      rw [String.data_append, show ("-" : String).data = ['-'] from by decide,
        show ("monthly" : String).data = ['m', 'o', 'n', 't', 'h', 'l', 'y'] from by decide,
        List.singleton_append] at hd
      injection hd with h1 h2
      exact absurd h1 (by decide)

/-- The duration string produced by `calculatePrice` is never a legal value
of the rental schema's `duration` enum — for any inputs, so the save-time
enum validator always rejects a document carrying it. -/
theorem calculatePrice_duration_not_in_enum (perDay sD eD : Int) :
    durationEnum.contains (calculatePrice perDay sD eD).1 = false := by
  show durationEnum.contains (toString (ceilDivInt (eD - sD) msPerDay)) = false
  obtain ⟨h1, h2, h3⟩ := intRepr_ne_buckets (ceilDivInt (eD - sD) msPerDay)
  have hb1 : (toString (ceilDivInt (eD - sD) msPerDay) == "daily") = false :=
    beq_eq_false_iff_ne.mpr h1
  have hb2 : (toString (ceilDivInt (eD - sD) msPerDay) == "weekly") = false :=
    beq_eq_false_iff_ne.mpr h2
  have hb3 : (toString (ceilDivInt (eD - sD) msPerDay) == "monthly") = false :=
    beq_eq_false_iff_ne.mpr h3
  simp [durationEnum, List.contains, List.elem, hb1, hb2, hb3]

/-- Claim C10: for every product daily rate and every range with the end
after the start, `calculatePrice` returns the total price
`ceil((end - start) in days) * perDay` together with a duration that is the
decimal string of the day count (every character a digit), and that string
is never one of the schema's legal `duration` enum values
`daily`/`weekly`/`monthly` — so the date-edit path, which stores
`(calculatePrice ...).1` into `duration`, always assigns a value outside
the declared enum. -/
theorem C10_calculatePrice_duration (perDay startD endD : Int) (h : startD < endD) :
    calculatePrice perDay startD endD =
      (toString (ceilDivInt (endD - startD) msPerDay),
       ceilDivInt (endD - startD) msPerDay * perDay) ∧
    (∀ c ∈ (calculatePrice perDay startD endD).1.data, c.isDigit = true) ∧
    durationEnum.contains (calculatePrice perDay startD endD).1 = false := by
  have hdays : 0 < ceilDivInt (endD - startD) msPerDay := by
    unfold ceilDivInt
    have h1 : -(endD - startD) < 0 := by omega
    have h2 : (0 : Int) < msPerDay := by decide
    have h3 := Int.ediv_neg' h1 h2
    omega
  obtain ⟨n, hn⟩ := Int.eq_ofNat_of_zero_le (le_of_lt hdays)
  have hfst : (calculatePrice perDay startD endD).1 = Nat.repr n := by
    show toString (ceilDivInt (endD - startD) msPerDay) = Nat.repr n
    rw [hn]
    rfl
  refine ⟨rfl, ?_, ?_⟩
  · rw [hfst]
    intro c hc
    exact natRepr_digits n c hc
  · rw [hfst]
    obtain ⟨h1, h2, h3⟩ := natRepr_ne_buckets n
    have hb1 : (Nat.repr n == "daily") = false := beq_eq_false_iff_ne.mpr h1
    have hb2 : (Nat.repr n == "weekly") = false := beq_eq_false_iff_ne.mpr h2
    have hb3 : (Nat.repr n == "monthly") = false := beq_eq_false_iff_ne.mpr h3
    simp [durationEnum, List.contains, List.elem, hb1, hb2, hb3]

/-- Witness for C10_calculatePrice_duration: a three-day range at rate 100
(`calculatePrice` yields duration `"3"` and total 300). -/
theorem C10_witness :
    ((0 : Int) < 259200000) ∧
    (calculatePrice 100 0 259200000 =
      (toString (ceilDivInt (259200000 - 0) msPerDay),
       ceilDivInt (259200000 - 0) msPerDay * 100) ∧
    (∀ c ∈ (calculatePrice 100 0 259200000).1.data, c.isDigit = true) ∧
    durationEnum.contains (calculatePrice 100 0 259200000).1 = false) :=
  ⟨by decide, C10_calculatePrice_duration 100 0 259200000 (by decide)⟩

/-! ### Claim C4 -/

theorem setProductAvailable_products (st : St) (pid : Nat) (b : Bool) :
    (setProductAvailable st pid b).products =
      st.products.map (fun p => if p.id = pid then { p with isAvailable := b } else p) := rfl

/-- Claim C4 counterexample: the permissive status handler accepts the
`completed -> active` undo edge, which is not an edge of the canonical
table (terminal states have no outgoing edges there): on a completed rental
the request succeeds and stores status `active` instead of failing with
`InvalidTransition`. -/
theorem C4_counterexample :
    (permissiveTransitionStatus stC4 Role.vendor 10 1 RStatus.active true).1 =
      .ok { rC4 with status := RStatus.active } ∧
    (permissiveTransitionStatus stC4 Role.vendor 10 1 RStatus.active true).2.rentals.map
      (fun r => r.status) = [RStatus.active] := by
  decide

/-- Claim C4 (amended): the two strict status handlers reject every pair
outside the canonical table with `InvalidTransition`, reporting the current
status and the attempted target and leaving the state unchanged — in
particular every outgoing edge from `rejected`, `completed` and
`cancelled`; the permissive handler does the same only for pairs outside
its own extended table, which additionally contains the undo edges
`completed -> active`, `rejected -> pending` and
`cancelled -> pending/approved/active`. -/
theorem C4_invalid_transition_rejected :
    (∀ (st : St) (uid rid : Nat) (target : RStatus) (ok : Bool) (r : Rental),
       findRentalOwned st rid uid = some r → target ∉ validTransitions r.status →
       transitionStatus st uid rid target ok =
         (.error (.invalidTransition r.status target), st)) ∧
    (∀ (st : St) (uid rid : Nat) (target : RStatus) (ok : Bool) (r : Rental),
       findRentalOwned st rid uid = some r → target ∉ validTransitions r.status →
       vendorTransitionStatus st Role.vendor uid rid target ok =
         (.error (.invalidTransition r.status target), st)) ∧
    (∀ (st : St) (uid rid : Nat) (target : RStatus) (ok : Bool) (r : Rental),
       findRentalOwned st rid uid = some r → target ∉ permissiveTransitions r.status →
       permissiveTransitionStatus st Role.vendor uid rid target ok =
         (.error (.invalidTransition r.status target), st)) := by
  refine ⟨?_, ?_, ?_⟩
  · intro st uid rid target ok r hfind hmem
    simp only [transitionStatus, hfind]
    rw [if_pos hmem]
  · intro st uid rid target ok r hfind hmem
    simp only [vendorTransitionStatus, hfind]
    rw [if_neg (fun hh => hh rfl), if_pos hmem]
  · intro st uid rid target ok r hfind hmem
    simp only [permissiveTransitionStatus, hfind]
    rw [if_neg (fun hh => hh rfl), if_pos hmem]

/-- Witness for C4_invalid_transition_rejected: outgoing edges from the
terminal state `completed` on a concrete store. -/
theorem C4_witness :
    transitionStatus stC4 10 1 RStatus.active true =
      (.error (.invalidTransition RStatus.completed RStatus.active), stC4) ∧
    vendorTransitionStatus stC4 Role.vendor 10 1 RStatus.active true =
      (.error (.invalidTransition RStatus.completed RStatus.active), stC4) ∧
    permissiveTransitionStatus stC4 Role.vendor 10 1 RStatus.pending true =
      (.error (.invalidTransition RStatus.completed RStatus.pending), stC4) :=
  ⟨C4_invalid_transition_rejected.1 stC4 10 1 RStatus.active true rC4 (by decide) (by decide),
   C4_invalid_transition_rejected.2.1 stC4 10 1 RStatus.active true rC4 (by decide) (by decide),
   C4_invalid_transition_rejected.2.2 stC4 10 1 RStatus.pending true rC4 (by decide) (by decide)⟩

/-! ### Claim C5 -/

/-- Claim C5 counterexample: `POST /rentals/:id/approve` is an externally
visible approve path, and on a pending rental it persists status
`approved` — a lingering approved state, not the one-step `pending ->
active` promotion the claim asserts for every approve path. -/
theorem C5_counterexample :
    (approveRental stC5 Role.vendor 10 1).1 = .ok { rC5 with status := RStatus.approved } ∧
    (approveRental stC5 Role.vendor 10 1).2.rentals.map (fun r => r.status) =
      [RStatus.approved] ∧
    RStatus.approved ≠ RStatus.active := by
  decide

/-- Claim C5 (amended): only the first vendor status handler performs the
one-step promotion (an `approved` target on a pending rental is stored as
`active`); the `POST /rentals/:id/approve` endpoint and the `rentals.js`
status handler persist the lingering status `approved`. -/
theorem C5_approve_behaviour :
    (∀ (st : St) (uid rid : Nat) (ok : Bool) (r : Rental),
       findRentalOwned st rid uid = some r → r.status = RStatus.pending →
       (vendorTransitionStatus st Role.vendor uid rid RStatus.approved ok).1 =
         .ok { r with status := RStatus.active } ∧
       ∀ x ∈ (vendorTransitionStatus st Role.vendor uid rid RStatus.approved ok).2.rentals,
         x.id = r.id → x.status = RStatus.active) ∧
    (∀ (st : St) (uid rid : Nat) (r : Rental),
       st.rentals.find? (fun x => decide (x.id = rid ∧ x.owner = uid ∧ x.status = RStatus.pending)) = some r →
       (approveRental st Role.vendor uid rid).1 = .ok { r with status := RStatus.approved } ∧
       ∀ x ∈ (approveRental st Role.vendor uid rid).2.rentals,
         x.id = r.id → x.status = RStatus.approved) ∧
    (∀ (st : St) (uid rid : Nat) (ok : Bool) (r : Rental),
       findRentalOwned st rid uid = some r → r.status = RStatus.pending →
       (transitionStatus st uid rid RStatus.approved ok).1 =
         .ok { r with status := RStatus.approved } ∧
       ∀ x ∈ (transitionStatus st uid rid RStatus.approved ok).2.rentals,
         x.id = r.id → x.status = RStatus.approved) := by
  refine ⟨?_, ?_, ?_⟩
  · intro st uid rid ok r hfind hp
    simp only [vendorTransitionStatus, hfind, hp]
    rw [if_neg (fun hh => hh rfl), if_neg (by decide)]
    refine ⟨rfl, ?_⟩
    intro x hx hxid
    simp only [dispatchRentalNotifs_rentals, saveRental_rentals, List.mem_map] at hx
    obtain ⟨y, hy, hyx⟩ := hx
    by_cases hcase : y.id = r.id
    · rw [if_pos hcase] at hyx
      rw [← hyx]
      simp
    · rw [if_neg hcase] at hyx
      rw [← hyx] at hxid
      exact absurd hxid hcase
  · intro st uid rid r hfind
    simp only [approveRental, hfind]
    rw [if_neg (fun hh => hh rfl)]
    refine ⟨rfl, ?_⟩
    intro x hx hxid
    simp only [saveRental_rentals, List.mem_map] at hx
    obtain ⟨y, hy, hyx⟩ := hx
    by_cases hcase : y.id = r.id
    · rw [if_pos hcase] at hyx
      rw [← hyx]
    · rw [if_neg hcase] at hyx
      rw [← hyx] at hxid
      exact absurd hxid hcase
  · intro st uid rid ok r hfind hp
    simp only [transitionStatus, hfind, hp]
    rw [if_neg (by decide), if_neg (by decide)]
    refine ⟨rfl, ?_⟩
    intro x hx hxid
    simp only [dispatchRentalNotifs_rentals, saveRental_rentals, List.mem_map] at hx
    obtain ⟨y, hy, hyx⟩ := hx
    by_cases hcase : y.id = r.id
    · rw [if_pos hcase] at hyx
      rw [← hyx]
    · rw [if_neg hcase] at hyx
      rw [← hyx] at hxid
      exact absurd hxid hcase

/-- Witness for C5_approve_behaviour on the concrete pending rental. -/
theorem C5_witness :
    ((vendorTransitionStatus stC5 Role.vendor 10 1 RStatus.approved true).1 =
       .ok { rC5 with status := RStatus.active } ∧
     ∀ x ∈ (vendorTransitionStatus stC5 Role.vendor 10 1 RStatus.approved true).2.rentals,
       x.id = rC5.id → x.status = RStatus.active) ∧
    ((approveRental stC5 Role.vendor 10 1).1 = .ok { rC5 with status := RStatus.approved } ∧
     ∀ x ∈ (approveRental stC5 Role.vendor 10 1).2.rentals,
       x.id = rC5.id → x.status = RStatus.approved) ∧
    ((transitionStatus stC5 10 1 RStatus.approved true).1 =
       .ok { rC5 with status := RStatus.approved } ∧
     ∀ x ∈ (transitionStatus stC5 10 1 RStatus.approved true).2.rentals,
       x.id = rC5.id → x.status = RStatus.approved) :=
  ⟨C5_approve_behaviour.1 stC5 10 1 true rC5 (by decide) (by decide),
   C5_approve_behaviour.2.1 stC5 10 1 rC5 (by decide),
   C5_approve_behaviour.2.2 stC5 10 1 true rC5 (by decide) (by decide)⟩

/-! ### Claim C6 -/

/-- Claim C6 counterexample: renter 20 attempts to approve their own
pending request through the status handler; the owner-scoped lookup finds
nothing, so the handler fails with `NotFound` — not with `Forbidden` as the
claim asserts (the rental is indeed unchanged). -/
theorem C6_counterexample :
    transitionStatus stC6 20 1 RStatus.approved true = (.error .notFound, stC6) ∧
    RErr.notFound ≠ RErr.forbidden := by
  decide

/-- Claim C6 (amended): a transition request by an actor who lacks the
required role is refused without mutating the rental, but the error kind
depends on the path: the `rentals.js` status handler scopes its lookup to
the owner, so any non-owner actor (in particular the renter) gets
`NotFound`; the vendor routers refuse non-vendor roles with `Forbidden`
via the `authorize` middleware; and the cancel endpoint refuses a
non-renter actor with `Forbidden`. -/
theorem C6_wrong_actor_behaviour :
    (∀ (st : St) (uid rid : Nat) (target : RStatus) (ok : Bool),
       (∀ r ∈ st.rentals, r.id = rid → r.owner ≠ uid) →
       transitionStatus st uid rid target ok = (.error .notFound, st)) ∧
    (∀ (st : St) (role : Role) (uid rid : Nat) (target : RStatus) (ok : Bool),
       role ≠ Role.vendor →
       vendorTransitionStatus st role uid rid target ok = (.error .forbidden, st)) ∧
    (∀ (st : St) (uid rid : Nat) (ok : Bool) (r : Rental),
       st.rentals.find? (fun x => decide (x.id = rid)) = some r → r.renter ≠ uid →
       cancelRental st uid rid ok = (.error .forbidden, st)) := by
  refine ⟨?_, ?_, ?_⟩
  · intro st uid rid target ok h
    have hnone : findRentalOwned st rid uid = none := by
      unfold findRentalOwned
      rw [List.find?_eq_none]
      intro x hx
      simp only [decide_eq_true_eq, not_and]
      exact fun h1 => h x hx h1
    simp only [transitionStatus, hnone]
  · intro st role uid rid target ok hrole
    unfold vendorTransitionStatus
    rw [if_pos hrole]
  · intro st uid rid ok r hfind hrent
    simp only [cancelRental, hfind]
    rw [if_pos hrent]

/-- Witness for C6_wrong_actor_behaviour: renter 20 on the status handler
(NotFound), customer role on the vendor handler and owner 10 on the cancel
endpoint (Forbidden). -/
theorem C6_witness :
    transitionStatus stC6 20 1 RStatus.approved true = (.error .notFound, stC6) ∧
    vendorTransitionStatus stC6 Role.customer 20 1 RStatus.approved true =
      (.error .forbidden, stC6) ∧
    cancelRental stC6 10 1 true = (.error .forbidden, stC6) :=
  ⟨C6_wrong_actor_behaviour.1 stC6 20 1 RStatus.approved true (by decide),
   C6_wrong_actor_behaviour.2.1 stC6 Role.customer 20 1 RStatus.approved true (by decide),
   C6_wrong_actor_behaviour.2.2 stC6 10 1 true rC6 (by decide) (by decide)⟩

/-! ### Claim C7 -/

/-- Claim C7 counterexample: the permissive status handler has no
completion side effect: completing the active rental on a product whose
availability flag is `false` succeeds and leaves the flag `false`,
contradicting the claim that every successful transition to `completed`
makes the product available. -/
theorem C7_counterexample :
    exceptOk (permissiveTransitionStatus stC7 Role.vendor 10 1 RStatus.completed true).1 = true ∧
    (permissiveTransitionStatus stC7 Role.vendor 10 1 RStatus.completed true).2.products.map
      (fun p => p.isAvailable) = [false] := by
  decide

/-- Claim C7 (amended): the `rentals.js` status handler and the first
vendor status handler set the owning product's availability flag to `true`
on every transition they accept to `completed`, regardless of the flag's
prior value (so repeating the effect is idempotent); the permissive handler
applies `completed` transitions without touching the flag. -/
theorem C7_completion_releases :
    (∀ (st : St) (uid rid : Nat) (ok : Bool) (r : Rental),
       findRentalOwned st rid uid = some r →
       RStatus.completed ∈ validTransitions r.status →
       ∀ p ∈ (transitionStatus st uid rid RStatus.completed ok).2.products,
         p.id = r.product → p.isAvailable = true) ∧
    (∀ (st : St) (uid rid : Nat) (ok : Bool) (r : Rental),
       findRentalOwned st rid uid = some r →
       RStatus.completed ∈ validTransitions r.status →
       ∀ p ∈ (vendorTransitionStatus st Role.vendor uid rid RStatus.completed ok).2.products,
         p.id = r.product → p.isAvailable = true) := by
  constructor
  · intro st uid rid ok r hfind hmem
    simp only [transitionStatus, hfind]
    rw [if_neg (not_not_intro hmem), if_pos trivial]
    intro p hp hpid
    simp only [dispatchRentalNotifs_products, saveRental_products,
      setProductAvailable_products, List.mem_map] at hp
    obtain ⟨q, hq, hqp⟩ := hp
    by_cases hcase : q.id = r.product
    · rw [if_pos hcase] at hqp
      rw [← hqp]
    · rw [if_neg hcase] at hqp
      rw [← hqp] at hpid
      exact absurd hpid hcase
  · intro st uid rid ok r hfind hmem
    simp only [vendorTransitionStatus, hfind]
    rw [if_neg (fun hh => hh rfl), if_neg (not_not_intro hmem), if_pos trivial]
    intro p hp hpid
    simp only [dispatchRentalNotifs_products, saveRental_products,
      setProductAvailable_products, List.mem_map] at hp
    obtain ⟨q, hq, hqp⟩ := hp
    by_cases hcase : q.id = r.product
    · rw [if_pos hcase] at hqp
      rw [← hqp]
    · rw [if_neg hcase] at hqp
      rw [← hqp] at hpid
      exact absurd hpid hcase

/-- Witness for C7_completion_releases: completing the active rental on the
initially unavailable product 1 through both strict handlers. -/
theorem C7_witness :
    (∀ p ∈ (transitionStatus stC7 10 1 RStatus.completed true).2.products,
       p.id = rC7.product → p.isAvailable = true) ∧
    (∀ p ∈ (vendorTransitionStatus stC7 Role.vendor 10 1 RStatus.completed true).2.products,
       p.id = rC7.product → p.isAvailable = true) :=
  ⟨C7_completion_releases.1 stC7 10 1 true rC7 (by decide) (by decide),
   C7_completion_releases.2 stC7 10 1 true rC7 (by decide) (by decide)⟩

/-! ### Claim C8 -/

/-- Claim C8: notification dispatch is best-effort.  For both `createRental`
and `transitionStatus`, a failing dispatch (`notifyOk = false`) yields the
same caller-visible outcome and the same rental (and product) stores as a
successful dispatch — only the notification store differs — and a
successful call has persisted its rental either way: notification failure
never surfaces an error and never rolls back the rental mutation. -/
theorem C8_notification_best_effort :
    (∀ (st : St) (uid pid : Nat) (sD eD claimed now : Int),
       (createRental st uid pid sD eD claimed now true).1 =
         (createRental st uid pid sD eD claimed now false).1 ∧
       (createRental st uid pid sD eD claimed now true).2.rentals =
         (createRental st uid pid sD eD claimed now false).2.rentals ∧
       (∀ (ok : Bool) (r : Rental), (createRental st uid pid sD eD claimed now ok).1 = .ok r →
          r ∈ (createRental st uid pid sD eD claimed now ok).2.rentals)) ∧
    (∀ (st : St) (uid rid : Nat) (target : RStatus),
       (transitionStatus st uid rid target true).1 =
         (transitionStatus st uid rid target false).1 ∧
       (transitionStatus st uid rid target true).2.rentals =
         (transitionStatus st uid rid target false).2.rentals ∧
       (transitionStatus st uid rid target true).2.products =
         (transitionStatus st uid rid target false).2.products ∧
       (∀ (ok : Bool) (r : Rental), (transitionStatus st uid rid target ok).1 = .ok r →
          r ∈ (transitionStatus st uid rid target ok).2.rentals)) := by
  constructor
  · intro st uid pid sD eD claimed now
    unfold createRental
    by_cases h1 : eD ≤ sD
    · simp only [if_pos h1]
      exact ⟨by simp, by simp, fun ok r hr => Except.noConfusion hr⟩
    simp only [if_neg h1]
    by_cases h2 : sD < now
    · simp only [if_pos h2]
      exact ⟨by simp, by simp, fun ok r hr => Except.noConfusion hr⟩
    simp only [if_neg h2]
    rcases hfp : findProduct st pid with _ | product
    · simp only [hfp]
      exact ⟨by simp, by simp, fun ok r hr => Except.noConfusion hr⟩
    simp only [hfp]
    by_cases h3 : product.owner = uid
    · simp only [if_pos h3]
      exact ⟨by simp, by simp, fun ok r hr => Except.noConfusion hr⟩
    simp only [if_neg h3]
    by_cases h4 : product.isAvailable = false
    · simp only [if_pos h4]
      exact ⟨by simp, by simp, fun ok r hr => Except.noConfusion hr⟩
    simp only [if_neg h4]
    by_cases h5 : checkAvailability st.rentals pid sD eD = false
    · simp only [if_pos h5]
      exact ⟨by simp, by simp, fun ok r hr => Except.noConfusion hr⟩
    simp only [if_neg h5]
    by_cases h6 : priceOutOfTolerance (expectedTier product (ceilDivInt (eD - sD) msPerDay)).2 claimed = true
    · simp only [if_pos h6]
      exact ⟨by simp, by simp, fun ok r hr => Except.noConfusion hr⟩
    simp only [if_neg h6]
    refine ⟨by simp, by simp [dispatchRentalNotifs_rentals], ?_⟩
    intro ok r hr
    simp only [dispatchRentalNotifs_rentals]
    have hok := Except.ok.inj hr
    rw [← hok]
    simp
  · intro st uid rid target
    unfold transitionStatus
    rcases hfr : findRentalOwned st rid uid with _ | rental
    · simp only [hfr]
      exact ⟨by simp, by simp, by simp, fun ok r hr => Except.noConfusion hr⟩
    simp only [hfr]
    by_cases h1 : target ∉ validTransitions rental.status
    · simp only [if_pos h1]
      exact ⟨by simp, by simp, by simp, fun ok r hr => Except.noConfusion hr⟩
    simp only [if_neg h1]
    refine ⟨by simp, by simp [dispatchRentalNotifs_rentals],
      by simp [dispatchRentalNotifs_products], ?_⟩
    intro ok r hr
    simp only [dispatchRentalNotifs_rentals, saveRental_rentals]
    have hok := Except.ok.inj hr
    have hmem : rental ∈ st.rentals := List.mem_of_find?_eq_some hfr
    have hrent : (if target = RStatus.completed then setProductAvailable st rental.product true else st).rentals = st.rentals := by
      split <;> rfl
    rw [hrent, ← hok]
    refine List.mem_map.mpr ⟨rental, hmem, ?_⟩
    rw [if_pos rfl]

/-- Witness for C8_notification_best_effort: the creation of a valid
four-day rental and the approval of a pending rental, with the persisted
record exhibited for a successful creation. -/
theorem C8_witness :
    ((createRental stC1 20 1 86400000 432000000 400 0 true).1 =
       (createRental stC1 20 1 86400000 432000000 400 0 false).1 ∧
     (createRental stC1 20 1 86400000 432000000 400 0 true).2.rentals =
       (createRental stC1 20 1 86400000 432000000 400 0 false).2.rentals ∧
     (∀ (ok : Bool) (r : Rental),
        (createRental stC1 20 1 86400000 432000000 400 0 ok).1 = .ok r →
        r ∈ (createRental stC1 20 1 86400000 432000000 400 0 ok).2.rentals)) ∧
    (⟨1, 1, 20, 10, 86400000, 432000000, "daily", 400, RStatus.pending, "pending", "pending"⟩ : Rental) ∈
      (createRental stC1 20 1 86400000 432000000 400 0 true).2.rentals ∧
    ((transitionStatus stC5 10 1 RStatus.approved true).1 =
       (transitionStatus stC5 10 1 RStatus.approved false).1 ∧
     (transitionStatus stC5 10 1 RStatus.approved true).2.rentals =
       (transitionStatus stC5 10 1 RStatus.approved false).2.rentals ∧
     (transitionStatus stC5 10 1 RStatus.approved true).2.products =
       (transitionStatus stC5 10 1 RStatus.approved false).2.products ∧
     (∀ (ok : Bool) (r : Rental),
        (transitionStatus stC5 10 1 RStatus.approved ok).1 = .ok r →
        r ∈ (transitionStatus stC5 10 1 RStatus.approved ok).2.rentals)) :=
  ⟨C8_notification_best_effort.1 stC1 20 1 86400000 432000000 400 0,
   (C8_notification_best_effort.1 stC1 20 1 86400000 432000000 400 0).2.2 true
     ⟨1, 1, 20, 10, 86400000, 432000000, "daily", 400, RStatus.pending, "pending", "pending"⟩
     (by decide),
   C8_notification_best_effort.2 stC5 10 1 RStatus.approved⟩

/-! ### Claim C9 -/

/-- Claim C9 counterexample: a date change on an *approved* rental is
persisted: the date-edit handler allows `startDate`/`endDate` updates while
the status is `approved` (its `allowedUpdates` table), runs no availability
check there and recomputes nothing — the untouched `duration` stays
enum-valid, so the save passes schema validation and the new dates stick,
contradicting the claim that no date change is persisted for a rental in
any status other than `pending`. -/
theorem C9_counterexample :
    exceptOk (updateRentalDates stC9 Role.vendor 10 1 uC9).1 = true ∧
    (updateRentalDates stC9 Role.vendor 10 1 uC9).2.rentals.map
      (fun x => (x.startDate, x.status)) = [(86400000, RStatus.approved)] ∧
    rC9.startDate = 864000000 := by
  decide

/-- Claim C9 (amended): the date-edit handler permits date changes while
the rental is `pending` *or* `approved` (its `allowedUpdates` table).  For
a pending rental (with no status field in the payload) it re-runs the
availability check on the merged range, failing with `DateConflict` and
persisting nothing on overlap with a committed booking; when the range is
available it recomputes `duration`/`totalPrice` via `calculatePrice`, but
the recomputed duration is the decimal day count — never a value of the
schema's `duration` enum — so the save is rejected by schema validation
and the handler answers with a server error persisting nothing.  For an
approved (schema-valid) rental the new dates are persisted with no
availability check and no recomputation, and for the remaining statuses
the stored dates never change. -/
theorem C9_date_update_behaviour :
    (∀ (st : St) (uid rid : Nat) (u : RentalUpdates) (r : Rental),
       findRentalOwned st rid uid = some r → r.status = RStatus.pending → u.status = none →
       (u.startDate.isSome || u.endDate.isSome) = true →
       checkAvailability st.rentals r.product (u.startDate.getD r.startDate)
         (u.endDate.getD r.endDate) = false →
       updateRentalDates st Role.vendor uid rid u = (.error (.dateConflict none), st)) ∧
    (∀ (st : St) (uid rid : Nat) (u : RentalUpdates) (r : Rental) (p : Product),
       findRentalOwned st rid uid = some r → r.status = RStatus.pending → u.status = none →
       (u.startDate.isSome || u.endDate.isSome) = true →
       checkAvailability st.rentals r.product (u.startDate.getD r.startDate)
         (u.endDate.getD r.endDate) = true →
       findProduct st r.product = some p →
       updateRentalDates st Role.vendor uid rid u = (.error .serverError, st) ∧
       durationEnum.contains (calculatePrice p.perDay (u.startDate.getD r.startDate)
         (u.endDate.getD r.endDate)).1 = false) ∧
    (∀ (st : St) (uid rid : Nat) (u : RentalUpdates) (r : Rental),
       findRentalOwned st rid uid = some r → r.status = RStatus.approved → u.status = none →
       u.paymentStatus = none → rentalSchemaValid r = true →
       updateRentalDates st Role.vendor uid rid u =
         (.ok { r with startDate := u.startDate.getD r.startDate,
                       endDate := u.endDate.getD r.endDate,
                       totalPrice := u.totalPrice.getD r.totalPrice },
          saveRental st { r with startDate := u.startDate.getD r.startDate,
                                 endDate := u.endDate.getD r.endDate,
                                 totalPrice := u.totalPrice.getD r.totalPrice })) ∧
    (∀ (st : St) (uid rid : Nat) (u : RentalUpdates) (r : Rental),
       findRentalOwned st rid uid = some r →
       (r.status = RStatus.active ∨ r.status = RStatus.completed ∨
        r.status = RStatus.cancelled ∨ r.status = RStatus.rejected) →
       ∀ x ∈ (updateRentalDates st Role.vendor uid rid u).2.rentals,
         x ∈ st.rentals ∨ (x.startDate = r.startDate ∧ x.endDate = r.endDate)) := by
  refine ⟨?_, ?_, ?_, ?_⟩
  · intro st uid rid u r hfind hp hu hsome hconf
    simp only [updateRentalDates, hfind]
    rw [if_neg (fun hh => hh rfl)]
    have hr1 : applyAllowed r u (allowedUpdates r.status) =
        { r with startDate := u.startDate.getD r.startDate,
                 endDate := u.endDate.getD r.endDate,
                 totalPrice := u.totalPrice.getD r.totalPrice } := by
      simp [applyAllowed, allowedUpdates, hu, hp]
    have hgd1 : u.startDate.getD (u.startDate.getD r.startDate) = u.startDate.getD r.startDate := by
      cases u.startDate <;> rfl
    have hgd2 : u.endDate.getD (u.endDate.getD r.endDate) = u.endDate.getD r.endDate := by
      cases u.endDate <;> rfl
    rw [hr1]
    simp [hsome, hp, hgd1, hgd2, hconf]
  · intro st uid rid u r p hfind hp hu hsome hav hfp
    refine ⟨?_, calculatePrice_duration_not_in_enum p.perDay _ _⟩
    simp only [updateRentalDates, hfind]
    rw [if_neg (fun hh => hh rfl)]
    have hr1 : applyAllowed r u (allowedUpdates r.status) =
        { r with startDate := u.startDate.getD r.startDate,
                 endDate := u.endDate.getD r.endDate,
                 totalPrice := u.totalPrice.getD r.totalPrice } := by
      simp [applyAllowed, allowedUpdates, hu, hp]
    have hgd1 : u.startDate.getD (u.startDate.getD r.startDate) = u.startDate.getD r.startDate := by
      cases u.startDate <;> rfl
    have hgd2 : u.endDate.getD (u.endDate.getD r.endDate) = u.endDate.getD r.endDate := by
      cases u.endDate <;> rfl
    have hne := intRepr_ne_buckets
      (ceilDivInt ((u.endDate.getD r.endDate) - (u.startDate.getD r.startDate)) msPerDay)
    have hnotmem : (calculatePrice p.perDay (u.startDate.getD r.startDate)
        (u.endDate.getD r.endDate)).1 ∉ durationEnum := by
      intro hmem2
      simp only [durationEnum, List.mem_cons, List.not_mem_nil, or_false] at hmem2
      rcases hmem2 with h | h | h
      · exact hne.1 h
      · exact hne.2.1 h
      · exact hne.2.2 h
    rw [hr1]
    simp [hsome, hp, hgd1, hgd2, hav, hfp, rentalSchemaValid, hnotmem]
  · intro st uid rid u r hfind hp hu hps hvalid
    simp only [rentalSchemaValid, Bool.and_eq_true] at hvalid
    obtain ⟨⟨hv1, hv2⟩, hv3⟩ := hvalid
    have hm1 : r.duration ∈ durationEnum := List.mem_of_elem_eq_true hv1
    have hm2 : r.paymentStatus ∈ paymentStatusEnum := List.mem_of_elem_eq_true hv2
    have hm3 : r.returnStatus ∈ returnStatusEnum := List.mem_of_elem_eq_true hv3
    simp only [updateRentalDates, hfind]
    rw [if_neg (fun hh => hh rfl)]
    have hr1 : applyAllowed r u (allowedUpdates r.status) =
        { r with startDate := u.startDate.getD r.startDate,
                 endDate := u.endDate.getD r.endDate,
                 totalPrice := u.totalPrice.getD r.totalPrice } := by
      simp [applyAllowed, allowedUpdates, hu, hp, hps]
    rw [hr1]
    simp [hp, rentalSchemaValid, hm1, hm2, hm3]
  · intro st uid rid u r hfind hstat
    have hkey : (applyAllowed r u (allowedUpdates r.status)).startDate = r.startDate ∧
        (applyAllowed r u (allowedUpdates r.status)).endDate = r.endDate := by
      rcases hstat with h | h | h | h <;> rw [h] <;> simp [applyAllowed, allowedUpdates]
    simp only [updateRentalDates, hfind]
    rw [if_neg (fun hh => hh rfl)]
    split
    · split
      · intro x hx
        exact Or.inl hx
      split
      · intro x hx
        exact Or.inl hx
      · split
        · intro x hx
          exact Or.inl hx
        · intro x hx
          simp only [saveRental_rentals, List.mem_map] at hx
          obtain ⟨y, hy, hyx⟩ := hx
          split at hyx
          · exact Or.inr ⟨by rw [← hyx]; exact hkey.1, by rw [← hyx]; exact hkey.2⟩
          · exact Or.inl (hyx ▸ hy)
    · split
      · intro x hx
        exact Or.inl hx
      · intro x hx
        simp only [saveRental_rentals, List.mem_map] at hx
        obtain ⟨y, hy, hyx⟩ := hx
        split at hyx
        · exact Or.inr ⟨by rw [← hyx]; exact hkey.1, by rw [← hyx]; exact hkey.2⟩
        · exact Or.inl (hyx ▸ hy)

/-- Witness for C9_date_update_behaviour: the four cases on concrete
stores — a pending edit that conflicts with a committed booking, a pending
conflict-free edit whose recomputed duration fails the schema's enum
validation so nothing persists, an approved edit persisted unchecked, and
an active rental whose dates cannot change. -/
theorem C9_witness :
    updateRentalDates stC9b Role.vendor 10 1 uC9b = (.error (.dateConflict none), stC9b) ∧
    (updateRentalDates stC9c Role.vendor 10 1 uC9b = (.error .serverError, stC9c) ∧
     durationEnum.contains (calculatePrice pC9.perDay (uC9b.startDate.getD rC9p.startDate)
       (uC9b.endDate.getD rC9p.endDate)).1 = false) ∧
    updateRentalDates stC9 Role.vendor 10 1 uC9 =
      (.ok { rC9 with startDate := uC9.startDate.getD rC9.startDate,
                      endDate := uC9.endDate.getD rC9.endDate,
                      totalPrice := uC9.totalPrice.getD rC9.totalPrice },
       saveRental stC9 { rC9 with startDate := uC9.startDate.getD rC9.startDate,
                                  endDate := uC9.endDate.getD rC9.endDate,
                                  totalPrice := uC9.totalPrice.getD rC9.totalPrice }) ∧
    (∀ x ∈ (updateRentalDates stC9d Role.vendor 10 1 uC9).2.rentals,
       x ∈ stC9d.rentals ∨ (x.startDate = rC9act.startDate ∧ x.endDate = rC9act.endDate)) :=
  ⟨C9_date_update_behaviour.1 stC9b 10 1 uC9b rC9p (by decide) (by decide) rfl (by decide) (by decide),
   C9_date_update_behaviour.2.1 stC9c 10 1 uC9b rC9p pC9 (by decide) (by decide) rfl (by decide)
     (by decide) (by decide),
   C9_date_update_behaviour.2.2.1 stC9 10 1 uC9 rC9 (by decide) (by decide) rfl rfl (by decide),
   C9_date_update_behaviour.2.2.2 stC9d 10 1 uC9 rC9act (by decide) (Or.inl rfl)⟩
